import Mathlib

/-!
Verification of the ALSA Focusrite Scarlett Gen 2/3 mixer driver
(`sound/usb/mixer_scarlett_gen2.c`).

The driver's pure data paths are shallowly embedded below: machine
integers become `Nat`/`Int` with explicit wrap-around where the C code
relies on it, fallible operations return `Except`/`Option`, and each
device's static descriptor tables are transcribed verbatim.
-/

/-! ## Port algebra (scarlett2_ports, scarlett2_id_to_mux, scarlett2_mux_to_id) -/

/-- One entry of a device's `struct scarlett2_ports` table: the hardware
ID base for the port type and the per-direction port counts
(`num[SCARLETT2_PORT_DIRECTIONS]`, directions IN/OUT/OUT_44/OUT_88/OUT_176). -/
structure Scarlett2Ports where
  id : Nat
  num : List Nat
deriving Repr, DecidableEq

/-- Count accessor `ports[port_type].num[direction]`. -/
def Scarlett2Ports.numAt (p : Scarlett2Ports) (direction : Nat) : Nat :=
  p.num.getD direction 0

/-- A port-type slot the device leaves zero-initialised. -/
def scarlett2_zero_port : Scarlett2Ports := ⟨0, [0, 0, 0, 0, 0]⟩

/-- Loop body of `scarlett2_id_to_mux`: walk the port types in order,
returning `ports[port_type].id + num` as soon as `num` falls inside the
type's count for this direction, else subtracting the count. -/
def scarlett2_id_to_mux_go (direction : Nat) : List Scarlett2Ports → Int → Nat
  | [], _ => 0
  | p :: rest, n =>
    if n < (p.numAt direction : Int) then p.id + n.toNat
    else scarlett2_id_to_mux_go direction rest (n - (p.numAt direction : Int))

/-- `scarlett2_id_to_mux`: convert a per-device flat port index to the
12-bit hardware wire ID (returns 0, u32, when the port cannot be encoded
or the arguments are out of range). -/
def scarlett2_id_to_mux (ports : List Scarlett2Ports) (direction : Nat) (num : Int) : Nat :=
  if 5 ≤ direction ∨ num < 0 then 0
  else scarlett2_id_to_mux_go direction ports num

/-- `scarlett2_count_ports`: total number of ports in one direction. -/
def scarlett2_count_ports (ports : List Scarlett2Ports) (direction : Nat) : Nat :=
  (ports.map (fun p => p.numAt direction)).sum

/-- Loop body of `scarlett2_mux_to_id`: scan port types; on a masked-ID
match either land inside this type's range or subtract its count; the
running `port_base` accumulates every type's count. -/
def scarlett2_mux_to_id_go (direction port_id : Nat) :
    List Scarlett2Ports → Int → Int → Int
  | [], _, _ => -1
  | p :: rest, port_num, port_base =>
    let cnt : Int := p.numAt direction
    if port_id = p.id &&& 0xf80 then
      if port_num < cnt then port_base + port_num
      else scarlett2_mux_to_id_go direction port_id rest (port_num - cnt) (port_base + cnt)
    else scarlett2_mux_to_id_go direction port_id rest port_num (port_base + cnt)

/-- `scarlett2_mux_to_id`: convert a hardware wire ID back to the flat
port index, `-1` when the ID does not decode to a declared port. -/
def scarlett2_mux_to_id (ports : List Scarlett2Ports) (direction : Nat) (mux_id : Nat) : Int :=
  if 5 ≤ direction then -1
  else
    let port_id := mux_id &&& 0xf80
    if port_id = 0 then -1
    else scarlett2_mux_to_id_go direction port_id ports ((mux_id &&& 0x7f : Nat) : Int) 0

/-- `scarlett2_get_port_num`: flat starting index of `(type, num)` — the
sum of the counts of all preceding types plus `num`. -/
def scarlett2_get_port_num : List Scarlett2Ports → Nat → Nat → Int → Int
  | _, _, 0, num => num
  | [], _, _ + 1, num => num
  | p :: rest, direction, t + 1, num =>
    scarlett2_get_port_num rest direction t (num + (p.numAt direction : Int))

/-! ## Per-device port tables (transcribed from the device descriptors) -/

/-- Port table of the Scarlett 6i6 Gen 2 (`s6i6_gen2_info.ports`). -/
def s6i6_gen2_ports : List Scarlett2Ports :=
  [⟨0x80, [4, 4, 4, 4, 4]⟩,
   ⟨0x180, [2, 2, 2, 2, 2]⟩,
   scarlett2_zero_port,
   ⟨0x300, [10, 18, 18, 18, 18]⟩,
   ⟨0x600, [6, 6, 6, 6, 6]⟩,
   scarlett2_zero_port,
   scarlett2_zero_port]

/-- Port table of the Scarlett 18i8 Gen 2 (`s18i8_gen2_info.ports`). -/
def s18i8_gen2_ports : List Scarlett2Ports :=
  [⟨0x80, [8, 6, 6, 6, 6]⟩,
   ⟨0x180, [2, 2, 2, 2, 2]⟩,
   ⟨0x200, [8, 0, 0, 0, 0]⟩,
   ⟨0x300, [10, 18, 18, 18, 18]⟩,
   ⟨0x600, [8, 18, 18, 14, 10]⟩,
   scarlett2_zero_port,
   scarlett2_zero_port]

/-- Port table of the Scarlett 18i20 Gen 2 (`s18i20_gen2_info.ports`). -/
def s18i20_gen2_ports : List Scarlett2Ports :=
  [⟨0x80, [8, 10, 10, 10, 10]⟩,
   ⟨0x180, [2, 2, 2, 2, 2]⟩,
   ⟨0x200, [8, 8, 8, 4, 0]⟩,
   ⟨0x300, [10, 18, 18, 18, 18]⟩,
   ⟨0x600, [20, 18, 18, 14, 10]⟩,
   scarlett2_zero_port,
   scarlett2_zero_port]

/-- Port table of the Scarlett Solo Gen 3 (`ssolo_gen3_info.ports`). -/
def ssolo_gen3_ports : List Scarlett2Ports :=
  [⟨0x80, [2, 2, 2, 2, 2]⟩,
   scarlett2_zero_port,
   scarlett2_zero_port,
   scarlett2_zero_port,
   ⟨0x600, [2, 2, 2, 2, 2]⟩,
   scarlett2_zero_port,
   scarlett2_zero_port]

/-- Port table of the Scarlett 2i2 Gen 3 (`s2i2_gen3_info.ports`). -/
def s2i2_gen3_ports : List Scarlett2Ports :=
  [⟨0x80, [2, 2, 2, 2, 2]⟩,
   scarlett2_zero_port,
   scarlett2_zero_port,
   scarlett2_zero_port,
   ⟨0x600, [2, 2, 2, 2, 2]⟩,
   scarlett2_zero_port,
   scarlett2_zero_port]

/-- Port table of the Scarlett 4i4 Gen 3 (`s4i4_gen3_info.ports`). -/
def s4i4_gen3_ports : List Scarlett2Ports :=
  [⟨0x80, [4, 4, 4, 4, 4]⟩,
   scarlett2_zero_port,
   scarlett2_zero_port,
   ⟨0x300, [6, 8, 8, 8, 8]⟩,
   ⟨0x600, [4, 6, 6, 6, 6]⟩,
   scarlett2_zero_port,
   scarlett2_zero_port]

/-- Port table of the Scarlett 8i6 Gen 3 (`s8i6_gen3_info.ports`). -/
def s8i6_gen3_ports : List Scarlett2Ports :=
  [⟨0x80, [6, 4, 4, 4, 4]⟩,
   ⟨0x180, [2, 2, 2, 2, 2]⟩,
   scarlett2_zero_port,
   ⟨0x300, [8, 8, 8, 8, 8]⟩,
   ⟨0x600, [6, 10, 10, 10, 10]⟩,
   scarlett2_zero_port,
   scarlett2_zero_port]

/-- Port table of the Scarlett 18i8 Gen 3 (`s18i8_gen3_info.ports`). -/
def s18i8_gen3_ports : List Scarlett2Ports :=
  [⟨0x80, [8, 8, 8, 8, 8]⟩,
   ⟨0x180, [2, 2, 2, 2, 2]⟩,
   ⟨0x200, [8, 0, 0, 0, 0]⟩,
   ⟨0x300, [10, 20, 20, 20, 20]⟩,
   ⟨0x600, [8, 20, 20, 16, 10]⟩,
   scarlett2_zero_port,
   scarlett2_zero_port]

/-- Port table of the Scarlett 18i20 Gen 3 (`s18i20_gen3_info.ports`),
including the internal-mic and talkback pseudo port types. -/
def s18i20_gen3_ports : List Scarlett2Ports :=
  [⟨0x80, [8, 10, 10, 10, 10]⟩,
   ⟨0x180, [2, 2, 2, 2, 2]⟩,
   ⟨0x200, [8, 8, 8, 8, 0]⟩,
   ⟨0x300, [12, 24, 24, 24, 24]⟩,
   ⟨0x600, [20, 20, 20, 18, 10]⟩,
   ⟨0x88, [1, 0, 0, 0, 0]⟩,
   ⟨0x318, [0, 1, 1, 1, 1]⟩]

/-- All nine supported devices' port tables
(`scarlett2_supported_devices`). -/
def scarlett2_supported_ports : List (List Scarlett2Ports) :=
  [s6i6_gen2_ports, s18i8_gen2_ports, s18i20_gen2_ports,
   ssolo_gen3_ports, s2i2_gen3_ports, s4i4_gen3_ports,
   s8i6_gen3_ports, s18i8_gen3_ports, s18i20_gen3_ports]

/-- C3: Port algebra round-trip.  For every supported device, every
direction, port type, and in-range index, decoding
(`scarlett2_mux_to_id`) the wire ID produced by encoding
(`scarlett2_id_to_mux`) the port's flat index yields that flat index,
which equals the dense prefix-sum flattening `scarlett2_get_port_num`. -/
theorem scarlett2_port_roundtrip :
    ∀ ports ∈ scarlett2_supported_ports, ∀ direction < 5, ∀ type < 7,
      ∀ index < (ports.getD type scarlett2_zero_port).numAt direction,
        scarlett2_mux_to_id ports direction
            (scarlett2_id_to_mux ports direction
              (scarlett2_get_port_num ports direction type (index : Int))) =
          scarlett2_get_port_num ports direction type (index : Int) := by
  decide

/-- Witness for C3: the 18i20 Gen 2 PCM output 5 round-trips to flat
index 25 (analogue 10 + spdif 2 + adat 8 + 5). -/
theorem scarlett2_port_roundtrip_witness :
    s18i20_gen2_ports ∈ scarlett2_supported_ports ∧
    scarlett2_mux_to_id s18i20_gen2_ports 1
        (scarlett2_id_to_mux s18i20_gen2_ports 1
          (scarlett2_get_port_num s18i20_gen2_ports 1 4 (5 : Int))) =
      scarlett2_get_port_num s18i20_gen2_ports 1 4 (5 : Int) :=
  ⟨by decide,
   scarlett2_port_roundtrip s18i20_gen2_ports (by decide) 1 (by decide) 4
     (by decide) 5 (by decide)⟩

/-! ## Mixer gain table and its inversion (scarlett2_mixer_values, scarlett2_usb_get_mix) -/

/-- The static gain table `scarlett2_mixer_values[173]`: map from the
half-dB index `(dB + 80) * 2` to the 16-bit linear mixer value. -/
def scarlett2_mixer_values : List Nat :=
  [0, 0, 0, 0, 1, 1, 1, 1,
   1, 1, 1, 1, 1, 1, 1, 1,
   2, 2, 2, 2, 2, 2, 2, 3,
   3, 3, 3, 3, 4, 4, 4, 4,
   5, 5, 5, 6, 6, 6, 7, 7,
   8, 8, 9, 9, 10, 10, 11, 12,
   12, 13, 14, 15, 16, 17, 18, 19,
   20, 21, 23, 24, 25, 27, 29, 30,
   32, 34, 36, 38, 41, 43, 46, 48,
   51, 54, 57, 61, 65, 68, 73, 77,
   81, 86, 91, 97, 103, 109, 115, 122,
   129, 137, 145, 154, 163, 173, 183, 194,
   205, 217, 230, 244, 259, 274, 290, 307,
   326, 345, 365, 387, 410, 434, 460, 487,
   516, 547, 579, 614, 650, 689, 730, 773,
   819, 867, 919, 973, 1031, 1092, 1157, 1225,
   1298, 1375, 1456, 1543, 1634, 1731, 1833, 1942,
   2057, 2179, 2308, 2445, 2590, 2744, 2906, 3078,
   3261, 3454, 3659, 3876, 4105, 4349, 4606, 4879,
   5168, 5475, 5799, 6143, 6507, 6892, 7301, 7733,
   8192, 8677, 9191, 9736, 10313, 10924, 11571, 12257,
   12983, 13752, 14567, 15430, 16345]

/-- `SCARLETT2_MIXER_VALUE_COUNT` (number of entries in the table). -/
def SCARLETT2_MIXER_VALUE_COUNT : Nat := 173

/-- `SCARLETT2_MIXER_MAX_VALUE` = (6 − (−80)) * 2. -/
def SCARLETT2_MIXER_MAX_VALUE : Nat := 172

/-- Inversion rule of `scarlett2_usb_get_mix`: the first index `k` with
`scarlett2_mixer_values[k] >= v`, clamped to `SCARLETT2_MIXER_MAX_VALUE`
when no entry qualifies. -/
def scarlett2_mixer_inverse (v : Nat) : Nat :=
  let k := scarlett2_mixer_values.findIdx (fun x => decide (v ≤ x))
  if k = SCARLETT2_MIXER_VALUE_COUNT then SCARLETT2_MIXER_MAX_VALUE else k

/-- Counterexample to C4 as stated: the table starts `0, 0, 0, 0, 1, …`,
so inverting `scarlett2_mixer_values[1] = 0` returns index 0, not 1. -/
theorem scarlett2_mixer_inverse_cex :
    scarlett2_mixer_inverse (scarlett2_mixer_values.getD 1 0) ≠ 1 := by
  decide

set_option maxRecDepth 8192 in
/-- C4 (amended): inverting `scarlett2_mixer_values[k]` by the
first-index-`≥` rule returns the least index holding the same stored
gain — hence at most `k`, with the gain value itself round-tripping —
and returns exactly `k` on the strictly increasing tail `k ≥ 49`; the
boundary entry at index 172 is 0x3FE9 = 16345. -/
theorem scarlett2_mixer_quantisation_amended :
    scarlett2_mixer_values.getD 172 0 = 16345 ∧
    (∀ k, k < 173 →
      scarlett2_mixer_inverse (scarlett2_mixer_values.getD k 0) ≤ k ∧
      scarlett2_mixer_values.getD
          (scarlett2_mixer_inverse (scarlett2_mixer_values.getD k 0)) 0 =
        scarlett2_mixer_values.getD k 0 ∧
      (49 ≤ k → scarlett2_mixer_inverse (scarlett2_mixer_values.getD k 0) = k)) := by
  decide

/-- Witness for C4 (amended) at k = 160 (unity gain 8192). -/
theorem scarlett2_mixer_quantisation_amended_witness :
    (160 : Nat) < 173 ∧
    scarlett2_mixer_inverse (scarlett2_mixer_values.getD 160 0) = 160 :=
  ⟨by decide,
   (scarlett2_mixer_quantisation_amended.2 160 (by decide)).2.2 (by decide)⟩

/-! ## Generic list helpers used by the proofs -/

/-- Reading back an index other than the one written by `List.set`. -/
theorem list_getD_set_ne {α : Type} (l : List α) (i j : Nat) (a d : α)
    (h : i ≠ j) : (l.set j a).getD i d = l.getD i d := by
  induction l generalizing i j with
  | nil => rfl
  | cons x xs ih =>
    cases j with
    | zero =>
      cases i with
      | zero => exact absurd rfl h
      | succ i => rfl
    | succ j =>
      cases i with
      | zero => rfl
      | succ i =>
        simp only [List.set, List.getD, List.get?]
        exact ih i j (fun hh => h (by simp [hh]))

/-- Reading back the index written by `List.set` (index in range). -/
theorem list_getD_set_self {α : Type} (l : List α) (j : Nat) (a d : α)
    (h : j < l.length) : (l.set j a).getD j d = a := by
  induction l generalizing j with
  | nil => cases h
  | cons x xs ih =>
    cases j with
    | zero => rfl
    | succ j =>
      simp only [List.set, List.getD, List.get?]
      exact ih j (Nat.lt_of_succ_lt_succ h)

/-- Effect of `List.set` on a sum of naturals (index in range). -/
theorem list_sum_set (l : List Nat) (j a : Nat) (h : j < l.length) :
    (l.set j a).sum + l.getD j 0 = l.sum + a := by
  induction l generalizing j with
  | nil => cases h
  | cons x xs ih =>
    cases j with
    | zero => simp [List.sum_cons, List.getD]; omega
    | succ j =>
      have := ih j (Nat.lt_of_succ_lt_succ h)
      simp only [List.set, List.sum_cons, List.getD, List.get?] at *
      omega

/-! ## Software-configuration checksum (scarlett2_calc_software_cksum,
scarlett2_commit_software_config) -/

/-- `sizeof(struct scarlett2_sw_cfg)` in bytes (0x1984). -/
def SCARLETT2_SW_CFG_BYTES : Nat := 6532

/-- Number of 32-bit words in the software-configuration blob. -/
def SCARLETT2_SW_CFG_WORDS : Nat := 1633

/-- `scarlett2_calc_software_cksum`: zero the trailing checksum word,
sum every 32-bit word of the blob, and store the negated sum (mod 2³²)
back into the trailing checksum word.  The blob is modelled as its list
of 32-bit little-endian words; the checksum is the last word. -/
def scarlett2_calc_software_cksum (ws : List Nat) : List Nat :=
  (ws.set (ws.length - 1) 0).set (ws.length - 1)
    ((2 ^ 32 - (ws.set (ws.length - 1) 0).sum % 2 ^ 32) % 2 ^ 32)

/-- `scarlett2_commit_software_config` on the state mirror: reject
out-of-bounds ranges (or a missing blob) with `-EINVAL` leaving the
mirror unchanged; otherwise the mirror's checksum is recomputed before
the changed range and the checksum word are written out. -/
def scarlett2_commit_software_config (sw : Option (List Nat))
    (offset bytes : Int) : Except Int (List Nat) :=
  match sw with
  | none => .error (-22)
  | some ws =>
    if offset < 0 ∨ (SCARLETT2_SW_CFG_BYTES : Int) < offset + bytes then .error (-22)
    else .ok (scarlett2_calc_software_cksum ws)

/-- The recomputed blob always sums to 0 modulo 2³². -/
theorem scarlett2_calc_software_cksum_sum (ws : List Nat) :
    (scarlett2_calc_software_cksum ws).sum % 2 ^ 32 = 0 := by
  cases ws with
  | nil => rfl
  | cons w rest =>
    set l := w :: rest with hl
    have hlen : l.length - 1 < l.length := by simp [hl]
    have hzlen : l.length - 1 < (l.set (l.length - 1) 0).length := by
      simpa [List.length_set] using hlen
    have hset := list_sum_set (l.set (l.length - 1) 0) (l.length - 1)
      ((2 ^ 32 - (l.set (l.length - 1) 0).sum % 2 ^ 32) % 2 ^ 32) hzlen
    have hget : (l.set (l.length - 1) 0).getD (l.length - 1) 0 = 0 :=
      list_getD_set_self l (l.length - 1) 0 0 hlen
    rw [hget] at hset
    unfold scarlett2_calc_software_cksum
    omega

/-- C1: after any successful `scarlett2_commit_software_config`, the
in-mirror software-configuration blob satisfies the checksum invariant:
the sum of all of its 32-bit words, the trailing checksum included, is
0 modulo 2³². -/
theorem scarlett2_commit_software_config_checksum_ok
    (sw : Option (List Nat)) (offset bytes : Int) (ws2 : List Nat)
    (h : scarlett2_commit_software_config sw offset bytes = .ok ws2) :
    ws2.sum % 2 ^ 32 = 0 := by
  match sw with
  | none => simp [scarlett2_commit_software_config] at h
  | some ws =>
    by_cases hb : offset < 0 ∨ (SCARLETT2_SW_CFG_BYTES : Int) < offset + bytes
    · simp [scarlett2_commit_software_config, hb] at h
    · simp only [scarlett2_commit_software_config, if_neg hb, Except.ok.injEq] at h
      subst h
      exact scarlett2_calc_software_cksum_sum ws

/-- Witness for C1: committing a 4-byte range at offset 8 of a small
concrete blob yields a mirror whose word sum vanishes modulo 2³². -/
theorem scarlett2_commit_software_config_checksum_ok_witness :
    scarlett2_commit_software_config (some [5, 7, 11, 0]) 8 4 =
      .ok [5, 7, 11, 2 ^ 32 - 23] ∧
    ([5, 7, 11, 2 ^ 32 - 23] : List Nat).sum % 2 ^ 32 = 0 :=
  ⟨by rfl,
   scarlett2_commit_software_config_checksum_ok (some [5, 7, 11, 0]) 8 4
     [5, 7, 11, 2 ^ 32 - 23] (by rfl)⟩

/-! ## Protocol codec (scarlett2_usb_packet, scarlett2_fill_request_header,
scarlett2_usb) -/

/-- `struct scarlett2_usb_packet`: the 16-byte envelope
`cmd u32 | size u16 | seq u16 | error u32 | pad u32` followed by the
payload bytes. -/
structure Scarlett2UsbPacket where
  cmd : Nat
  size : Nat
  seq : Nat
  error : Nat
  pad : Nat
  data : List Nat
deriving Repr, DecidableEq

/-- `scarlett2_fill_request_header`: build a request envelope carrying
the current u16 sequence counter and post-increment the counter (u16
wrap-around). -/
def scarlett2_fill_request_header (scarlett2_seq cmd req_size : Nat)
    (req_data : List Nat) : Scarlett2UsbPacket × Nat :=
  (⟨cmd, req_size, scarlett2_seq % 2 ^ 16, 0, 0, req_data⟩,
   (scarlett2_seq + 1) % 2 ^ 16)

/-- Validation predicate of `scarlett2_usb` over the received response:
command echo, sequence echo (with the init exception `req.seq = 1 ∧
resp.seq = 0`), declared response size, zero error, zero pad. -/
def scarlett2_usb_resp_valid (req resp : Scarlett2UsbPacket)
    (resp_size : Nat) : Prop :=
  resp.cmd = req.cmd ∧
  (resp.seq = req.seq ∨ (req.seq = 1 ∧ resp.seq = 0)) ∧
  resp.size = resp_size ∧ resp.error = 0 ∧ resp.pad = 0

instance (req resp : Scarlett2UsbPacket) (resp_size : Nat) :
    Decidable (scarlett2_usb_resp_valid req resp resp_size) := by
  unfold scarlett2_usb_resp_valid; infer_instance

/-- `scarlett2_usb`: send one command and read its response.  The USB
transfer outcomes (`txResult`, `rxResult`, in bytes or a negative error)
and the response packet the device produced are inputs; the result is
the response payload copied to the caller (on success) or `-EINVAL`,
paired with the updated sequence counter.  A short transfer or any
envelope validation failure yields the error and copies no data. -/
def scarlett2_usb (scarlett2_seq cmd : Nat) (req_data : List Nat)
    (req_size resp_size : Nat) (txResult rxResult : Int)
    (resp : Scarlett2UsbPacket) : Except Int (List Nat) × Nat :=
  let filled := scarlett2_fill_request_header scarlett2_seq cmd req_size req_data
  let req := filled.1
  let req_buf_size : Int := 16 + req_size
  let resp_buf_size : Int := 16 + resp_size
  if txResult ≠ req_buf_size then (.error (-22), filled.2)
  else if rxResult ≠ resp_buf_size then (.error (-22), filled.2)
  else if ¬ (resp.cmd = req.cmd ∧
             (resp.seq = req.seq ∨ (req.seq = 1 ∧ resp.seq = 0)) ∧
             resp.size = resp_size ∧ resp.error = 0 ∧ resp.pad = 0) then
    (.error (-22), filled.2)
  else (.ok (resp.data.take resp_size), filled.2)

/-- C2: for every command sent through `scarlett2_usb` whose raw
transfers complete with the full buffer sizes, the operation succeeds
and hands the caller the response payload exactly when the response
envelope passes the documented validation (command echo, sequence echo
with the init exception, declared size, zero error, zero pad); any
mismatch makes it return `-EINVAL` and copy no data. -/
theorem scarlett2_usb_response_validation
    (scarlett2_seq cmd : Nat) (req_data : List Nat)
    (req_size resp_size : Nat) (resp : Scarlett2UsbPacket)
    (seqv : Nat) (hseqv : seqv = scarlett2_seq % 2 ^ 16) :
    (scarlett2_usb_resp_valid ⟨cmd, req_size, seqv, 0, 0, req_data⟩ resp resp_size →
      scarlett2_usb scarlett2_seq cmd req_data req_size resp_size
          (16 + req_size) (16 + resp_size) resp =
        (.ok (resp.data.take resp_size), (scarlett2_seq + 1) % 2 ^ 16)) ∧
    (¬ scarlett2_usb_resp_valid ⟨cmd, req_size, seqv, 0, 0, req_data⟩ resp resp_size →
      scarlett2_usb scarlett2_seq cmd req_data req_size resp_size
          (16 + req_size) (16 + resp_size) resp =
        (.error (-22), (scarlett2_seq + 1) % 2 ^ 16)) := by
  subst hseqv
  unfold scarlett2_usb scarlett2_fill_request_header scarlett2_usb_resp_valid
  constructor
  · intro hv
    simp only [if_neg (by omega : ¬ ((16 + req_size : Int) ≠ 16 + req_size)),
      if_neg (by omega : ¬ ((16 + resp_size : Int) ≠ 16 + resp_size))]
    rw [if_neg]
    simp only [not_not]
    exact hv
  · intro hv
    simp only [if_neg (by omega : ¬ ((16 + req_size : Int) ≠ 16 + req_size)),
      if_neg (by omega : ¬ ((16 + resp_size : Int) ≠ 16 + resp_size))]
    rw [if_pos]
    exact hv

/-- Witness for C2: a well-formed response to command `GET_MUX`
(`0x3001`) at sequence 7 is accepted, and flipping its pad word to 1 is
rejected with `-EINVAL`. -/
theorem scarlett2_usb_response_validation_witness :
    scarlett2_usb 7 0x3001 [0, 0, 1, 0] 4 8 20 24
        ⟨0x3001, 8, 7, 0, 0, [1, 2, 3, 4, 5, 6, 7, 8]⟩ =
      (.ok [1, 2, 3, 4, 5, 6, 7, 8], 8) ∧
    scarlett2_usb 7 0x3001 [0, 0, 1, 0] 4 8 20 24
        ⟨0x3001, 8, 7, 0, 1, [1, 2, 3, 4, 5, 6, 7, 8]⟩ =
      (.error (-22), 8) :=
  ⟨(scarlett2_usb_response_validation 7 0x3001 [0, 0, 1, 0] 4 8
      ⟨0x3001, 8, 7, 0, 0, [1, 2, 3, 4, 5, 6, 7, 8]⟩ 7 (by decide)).1
      (by decide),
   (scarlett2_usb_response_validation 7 0x3001 [0, 0, 1, 0] 4 8
      ⟨0x3001, 8, 7, 0, 1, [1, 2, 3, 4, 5, 6, 7, 8]⟩ 7 (by decide)).2
      (by decide)⟩

/-! ## Configuration writes and volume controls (scarlett2_usb_set_config,
scarlett2_volume_ctl_put, scarlett2_update_volumes) -/

/-- `struct scarlett2_config`: offset, size and activation command of
one configuration item. -/
structure Scarlett2Config where
  offset : Nat
  size : Nat
  activate : Nat
deriving Repr, DecidableEq

/-- `scarlett2_pro_config_items[SCARLETT2_CONFIG_LINE_OUT_VOLUME]`. -/
def scarlett2_config_line_out_volume : Scarlett2Config := ⟨0x34, 2, 1⟩

/-- `SCARLETT2_VOLUME_BIAS`. -/
def SCARLETT2_VOLUME_BIAS : Nat := 127

/-- The on-wire body of one `SET_DATA` configuration write: byte offset,
byte count, and the first `bytes` little-endian bytes of the 32-bit
value word, as an unsigned number. -/
structure SetDataReq where
  offset : Nat
  bytes : Nat
  value : Nat
deriving Repr, DecidableEq

/-- Request built by `scarlett2_usb_set_config` for one item: offset
`item.offset + index * item.size`, `item.size` bytes taken from the
little-endian 32-bit encoding of `value`. -/
def scarlett2_usb_set_config_req (item : Scarlett2Config) (index : Nat)
    (value : Int) : SetDataReq :=
  ⟨item.offset + index * item.size, item.size,
   (value % (2 ^ 32 : Int)).toNat % 2 ^ (8 * item.size)⟩

/-- Signed decode of a 16-bit on-wire value. -/
def scarlett2_wire_s16 (w : Nat) : Int :=
  if w < 2 ^ 15 then (w : Int) else (w : Int) - 2 ^ 16

/-- `clamp(val, lo, hi)` over mathematical integers. -/
def intClamp (x lo hi : Int) : Int := max lo (min x hi)

/-- `scarlett2_volume_ctl_put` on the state mirror.  Inputs: the `vol`
mirror, the optional software-config per-output volume words, the
`vol_sw_hw_switch` mirror, the control index, the written value, and the
outcomes of the `SET_DATA` transfer (`usbErr`) and of the software
config commit (`commitErr`).  Output: the control return value, the new
`vol` mirror, the new software-config volumes, and the `SET_DATA`
request sent (if any).  The mirror is rolled forward before the
transfer and is not rolled back on failure. -/
def scarlett2_volume_ctl_put (vol : List Nat) (swCfgVol : Option (List Int))
    (vol_sw_hw_switch : List Nat) (index val : Nat)
    (usbErr commitErr : Int) :
    Int × List Nat × Option (List Int) × Option SetDataReq :=
  let oval := vol.getD index 0
  if oval = val then (0, vol, swCfgVol, none)
  else
    let vol2 := vol.set index val
    let req := scarlett2_usb_set_config_req scarlett2_config_line_out_volume
      index ((val : Int) - (SCARLETT2_VOLUME_BIAS : Int))
    if usbErr ≠ 0 then (usbErr, vol2, swCfgVol, some req)
    else
      match swCfgVol with
      | some cfgVol =>
        if vol_sw_hw_switch.getD index 0 = 0 then
          let cfgVol2 := cfgVol.set index ((val : Int) - (SCARLETT2_VOLUME_BIAS : Int))
          if commitErr < 0 then (commitErr, vol2, some cfgVol2, some req)
          else (1, vol2, some cfgVol2, some req)
        else (1, vol2, some cfgVol, some req)
      | none => (1, vol2, none, some req)

/-- `struct scarlett2_usb_volume_status` (the fields the refresh path
reads): hardware buttons, software volumes, per-output mutes, sw/hw
switches, and the master volume knob, the 16-bit values sign-decoded. -/
structure Scarlett2VolumeStatus where
  buttons : List Nat
  sw_vol : List Int
  mute : List Nat
  sw_hw_switch : List Nat
  master_vol : Int
deriving Repr, DecidableEq

/-- `scarlett2_update_volumes`: recompute the mirrored master volume and
per-output volumes from a freshly read volume status.  Per output the
volume source is the master volume when hardware-controlled, else the
software-config volume word when a blob is mirrored, else the status's
software volume; each raw value is biased by 127 and clamped to
[0, 127]. -/
def scarlett2_update_volumes (line_out_hw_vol : Bool) (num_line_out : Nat)
    (swCfgVol : Option (List Int)) (vs : Scarlett2VolumeStatus) :
    Nat × List Nat :=
  let master_vol := (intClamp (vs.master_vol + (SCARLETT2_VOLUME_BIAS : Int))
    0 (SCARLETT2_VOLUME_BIAS : Int)).toNat
  (master_vol,
   (List.range num_line_out).map (fun i =>
     if line_out_hw_vol ∧ vs.sw_hw_switch.getD i 0 ≠ 0 then master_vol
     else
       match swCfgVol with
       | some cfgVol =>
         (intClamp (cfgVol.getD i 0 + (SCARLETT2_VOLUME_BIAS : Int))
           0 (SCARLETT2_VOLUME_BIAS : Int)).toNat
       | none =>
         (intClamp (vs.sw_vol.getD i 0 + (SCARLETT2_VOLUME_BIAS : Int))
           0 (SCARLETT2_VOLUME_BIAS : Int)).toNat))

/-! ## Mixer engine (scarlett2_sw_config_mixer_values,
scarlett2_float_to_mixer_level, scarlett2_mixer_ctl_put,
scarlett2_mixer_mute_ctl_put, scarlett2_add_mixer_ctls) -/

/-- `SCARLETT2_INPUT_MIX_MAX`. -/
def SCARLETT2_INPUT_MIX_MAX : Nat := 24

/-- `SCARLETT2_SW_CONFIG_MIXER_INPUTS`. -/
def SCARLETT2_SW_CONFIG_MIXER_INPUTS : Nat := 30

/-- `scarlett2_sw_config_mixer_values[173]`: high 16 bits of the F32LE
values matching −80..+6 dB in 0.5 dB steps. -/
def scarlett2_sw_config_mixer_values : List Nat :=
  [0xc300, 0xc29f, 0xc29e, 0xc29d, 0xc29c, 0xc29b, 0xc29a, 0xc299,
   0xc298, 0xc297, 0xc296, 0xc295, 0xc294, 0xc293, 0xc292, 0xc291,
   0xc290, 0xc28f, 0xc28e, 0xc28d, 0xc28c, 0xc28b, 0xc28a, 0xc289,
   0xc288, 0xc287, 0xc286, 0xc285, 0xc284, 0xc283, 0xc282, 0xc281,
   0xc280, 0xc27e, 0xc27c, 0xc27a, 0xc278, 0xc276, 0xc274, 0xc272,
   0xc270, 0xc26e, 0xc26c, 0xc26a, 0xc268, 0xc266, 0xc264, 0xc262,
   0xc260, 0xc25e, 0xc25c, 0xc25a, 0xc258, 0xc256, 0xc254, 0xc252,
   0xc250, 0xc24e, 0xc24c, 0xc24a, 0xc248, 0xc246, 0xc244, 0xc242,
   0xc240, 0xc23e, 0xc23c, 0xc23a, 0xc238, 0xc236, 0xc234, 0xc232,
   0xc230, 0xc22e, 0xc22c, 0xc22a, 0xc228, 0xc226, 0xc224, 0xc222,
   0xc220, 0xc21e, 0xc21c, 0xc21a, 0xc218, 0xc216, 0xc214, 0xc212,
   0xc210, 0xc20e, 0xc20c, 0xc20a, 0xc208, 0xc206, 0xc204, 0xc202,
   0xc200, 0xc1fc, 0xc1f8, 0xc1f4, 0xc1f0, 0xc1ec, 0xc1e8, 0xc1e4,
   0xc1e0, 0xc1dc, 0xc1d8, 0xc1d4, 0xc1d0, 0xc1cc, 0xc1c8, 0xc1c4,
   0xc1c0, 0xc1bc, 0xc1b8, 0xc1b4, 0xc1b0, 0xc1ac, 0xc1a8, 0xc1a4,
   0xc1a0, 0xc19c, 0xc198, 0xc194, 0xc190, 0xc18c, 0xc188, 0xc184,
   0xc180, 0xc178, 0xc170, 0xc168, 0xc160, 0xc158, 0xc150, 0xc148,
   0xc140, 0xc138, 0xc130, 0xc128, 0xc120, 0xc118, 0xc110, 0xc108,
   0xc100, 0xc0f0, 0xc0e0, 0xc0d0, 0xc0c0, 0xc0b0, 0xc0a0, 0xc090,
   0xc080, 0xc060, 0xc040, 0xc020, 0xc000, 0xbfc0, 0xbf80, 0xbf00,
   0x0000, 0x3f00, 0x3f80, 0x3fc0, 0x4000, 0x4020, 0x4040, 0x4060,
   0x4080, 0x4090, 0x40a0, 0x40b0, 0x40c0]

/-- `scarlett2_float_to_mixer_level`: decode a raw 32-bit IEEE-754 bit
pattern into a gain index in [−160, 12] (dB with 0.5 step). -/
def scarlett2_float_to_mixer_level (v : Nat) : Int :=
  let exp := (v >>> 23) &&& 0xff
  if exp < 0x7e then 0
  else
    let sign := v >>> 31
    if 0x85 < exp then (if sign ≠ 0 then -160 else 12)
    else
      let frac := (v &&& 0x7fffff) ||| 0x800000
      let frac2 := frac >>> (0x95 - exp)
      let res : Int := if sign ≠ 0 then -(frac2 : Int) else (frac2 : Int)
      if res < -160 then -160
      else if res < 12 then res else 12

/-- `scarlett2_mixer_ctl_put` on the state mirror.  Inputs: the `mix`
mirror, the software-config mixer gain words (`sw_cfg->mixer`, flattened
with the source's row stride of 30, `none` when no blob is mirrored),
the cell index, the written value and the `SET_MIX` transfer outcome.
Result `none` models the unguarded write through a NULL
`private->sw_cfg`; otherwise the control return value, the new mirror
and the new gain words.  The commit outcome is discarded, as in the
source. -/
def scarlett2_mixer_ctl_put (mix : List Nat) (swCfgMixer : Option (List Nat))
    (index val : Nat) (usbErr : Int) :
    Option (Int × List Nat × Option (List Nat)) :=
  let oval := mix.getD index 0
  let mix_num := index / SCARLETT2_INPUT_MIX_MAX
  let input_num := index % SCARLETT2_INPUT_MIX_MAX
  if oval = val then some (0, mix, swCfgMixer)
  else
    let mix2 := mix.set index val
    if usbErr < 0 then some (usbErr, mix2, swCfgMixer)
    else
      match swCfgMixer with
      | none => none
      | some g =>
        let level := scarlett2_sw_config_mixer_values.getD val 0
        some (1, mix2,
          some (g.set (mix_num * SCARLETT2_SW_CONFIG_MIXER_INPUTS + input_num)
            (level <<< 16)))

/-- `scarlett2_mixer_mute_ctl_put` on the state mirror: flip one cell of
`mix_mutes` (the control value is inverted), rebuild the mute bitmask of
the affected mix, and update `sw_cfg->mixer_mute` only under the
explicit NULL guard of the source; then send the mix. -/
def scarlett2_mixer_mute_ctl_put (mix_mutes : List Nat)
    (swCfgMute : Option (List Nat)) (num_inputs : Nat) (index inputVal : Nat)
    (commitErr usbErr : Int) :
    Option (Int × List Nat × Option (List Nat)) :=
  let oval := mix_mutes.getD index 0
  let val := if inputVal = 0 then 1 else 0
  if oval = val then some (0, mix_mutes, swCfgMute)
  else
    let mutes2 := mix_mutes.set index val
    let mix_num := index / SCARLETT2_INPUT_MIX_MAX
    match swCfgMute with
    | some mm =>
      let mask := ((List.range num_inputs).map
        (fun i => mutes2.getD (mix_num * SCARLETT2_INPUT_MIX_MAX + i) 0 <<< i)).foldl
          (fun a b => a ||| b) 0
      let mm2 := mm.set mix_num mask
      if commitErr < 0 then some (commitErr, mutes2, some mm2)
      else some (usbErr, mutes2, some mm2)
    | none => some (usbErr, mutes2, none)

/-- View of the software-configuration fields `scarlett2_add_mixer_ctls`
reads: the F32LE gain matrix (flattened, row stride 30) and the per-mix
mute masks. -/
structure Scarlett2SwCfgMixerView where
  mixer : List Nat
  mixer_mute : List Nat
deriving Repr, DecidableEq

/-- `scarlett2_add_mixer_ctls`: initialise the `mix` and `mix_mutes`
mirrors from the software configuration while registering the controls.
The gain matrix read `sw_cfg->mixer[i][j]` is not NULL-guarded in the
source (only the mute-mask read is), so a missing blob is a NULL
dereference (`none`) as soon as the device has a mixer and at least one
mix cell exists.  The initialised cells are returned row by row. -/
def scarlett2_add_mixer_ctls (has_mixer : Bool) (num_inputs num_outputs : Nat)
    (swCfg : Option Scarlett2SwCfgMixerView) :
    Option (List Nat × List Nat) :=
  if ¬ has_mixer then some ([], [])
  else if num_outputs = 0 ∨ num_inputs = 0 then some ([], [])
  else
    match swCfg with
    | none => none
    | some cfg =>
      some
        (((List.range num_outputs).map (fun i => (List.range num_inputs).map
            (fun j => (scarlett2_float_to_mixer_level
              (cfg.mixer.getD (i * SCARLETT2_SW_CONFIG_MIXER_INPUTS + j) 0) +
                160).toNat))).flatten,
         ((List.range num_outputs).map (fun i => (List.range num_inputs).map
            (fun j => if cfg.mixer_mute.getD i 0 &&& (1 <<< j) ≠ 0 then 1
              else 0))).flatten)

/-- Reading an in-range cell of a mapped `List.range`. -/
theorem list_getD_map_range {α : Type} (f : Nat → α) (n i : Nat) (d : α)
    (h : i < n) : ((List.range n).map f).getD i d = f i := by
  rw [List.getD_eq_getElem _ _ (by simpa using h)]
  simp [List.getElem_map, List.getElem_range]

set_option maxRecDepth 100000 in
/-- Signed-16 decode of the biased volume value carried on the wire. -/
theorem scarlett2_volume_wire_decode (u : Nat) (h : u ≤ 127) :
    scarlett2_wire_s16
        ((((u : Int) - (SCARLETT2_VOLUME_BIAS : Int)) % (2 ^ 32 : Int)).toNat %
          2 ^ 16) =
      (u : Int) - 127 := by
  revert u
  decide

/-- The `SET_DATA` request emitted by a changing volume put. -/
theorem scarlett2_volume_ctl_put_req (vol : List Nat)
    (swCfgVol : Option (List Int)) (swhw : List Nat) (index val : Nat)
    (usbErr commitErr : Int) (hne : vol.getD index 0 ≠ val) :
    (scarlett2_volume_ctl_put vol swCfgVol swhw index val usbErr commitErr).2.2.2 =
      some (scarlett2_usb_set_config_req scarlett2_config_line_out_volume index
        ((val : Int) - (SCARLETT2_VOLUME_BIAS : Int))) := by
  unfold scarlett2_volume_ctl_put
  simp only [if_neg hne]
  repeat' first | rfl | split

/-- C7: Volume bias.  (a) Every changing line-out volume put of a user
value `u ∈ [0, 127]` emits a 2-byte `SET_DATA` request at the line-out
volume offset whose on-wire value decodes, as a signed 16-bit quantity,
to `u − 127`.  (b) `scarlett2_update_volumes` stores for the master
volume and for each line out `clamp(raw + 127, 0, 127)` of the raw
signed source value (master knob, software-config volume, or status
software volume, as selected by the hardware-control switch). -/
theorem scarlett2_volume_bias_ok :
    (∀ (vol : List Nat) (swCfgVol : Option (List Int)) (swhw : List Nat)
       (index u : Nat) (usbErr commitErr : Int),
       u ≤ 127 → vol.getD index 0 ≠ u →
       ∃ r : SetDataReq,
         (scarlett2_volume_ctl_put vol swCfgVol swhw index u usbErr
             commitErr).2.2.2 = some r ∧
         r.offset = 0x34 + index * 2 ∧ r.bytes = 2 ∧
         scarlett2_wire_s16 r.value = (u : Int) - 127) ∧
    (∀ (hw : Bool) (n : Nat) (swCfgVol : Option (List Int))
       (vs : Scarlett2VolumeStatus) (i : Nat), i < n →
       (scarlett2_update_volumes hw n swCfgVol vs).1 =
         (intClamp (vs.master_vol + 127) 0 127).toNat ∧
       (scarlett2_update_volumes hw n swCfgVol vs).2.getD i 0 =
         (intClamp
           ((if hw ∧ vs.sw_hw_switch.getD i 0 ≠ 0 then vs.master_vol
             else
               match swCfgVol with
               | some cfgVol => cfgVol.getD i 0
               | none => vs.sw_vol.getD i 0) + 127) 0 127).toNat) := by
  constructor
  · intro vol swCfgVol swhw index u usbErr commitErr hu hne
    refine ⟨scarlett2_usb_set_config_req scarlett2_config_line_out_volume index
      ((u : Int) - (SCARLETT2_VOLUME_BIAS : Int)),
      scarlett2_volume_ctl_put_req vol swCfgVol swhw index u usbErr commitErr hne,
      rfl, rfl, ?_⟩
    exact scarlett2_volume_wire_decode u hu
  · intro hw n swCfgVol vs i h
    refine ⟨rfl, ?_⟩
    unfold scarlett2_update_volumes
    dsimp only
    rw [list_getD_map_range _ n i 0 h]
    by_cases hc : hw ∧ vs.sw_hw_switch.getD i 0 ≠ 0
    · simp only [if_pos hc]
      rfl
    · simp only [if_neg hc]
      cases swCfgVol <;> rfl

/-- Witness for C7 at `u = 100`, output 0, with no software config. -/
theorem scarlett2_volume_bias_ok_witness :
    (∃ r : SetDataReq,
      (scarlett2_volume_ctl_put [127] none [0] 0 100 0 0).2.2.2 = some r ∧
      r.offset = 0x34 + 0 * 2 ∧ r.bytes = 2 ∧
      scarlett2_wire_s16 r.value = (100 : Int) - 127) ∧
    (scarlett2_update_volumes false 1 none ⟨[], [-12], [], [], -27⟩).2.getD 0 0 =
      (intClamp ((-12 : Int) + 127) 0 127).toNat :=
  ⟨scarlett2_volume_bias_ok.1 [127] none [0] 0 100 0 0 (by decide) (by decide),
   ((scarlett2_volume_bias_ok.2 false 1 none ⟨[], [-12], [], [], -27⟩ 0
     (by decide)).2).trans rfl⟩

/-- Counterexample to C8 as stated: a volume put whose `SET_DATA`
transfer fails with `-EINVAL` leaves the mirror holding the new value
`[5]`, not its pre-put value `[0]` — the mirror is not left unchanged. -/
theorem scarlett2_put_transfer_error_cex :
    (scarlett2_volume_ctl_put [0] (some [0]) [0] 0 5 (-22) 0).1 = -22 ∧
    (scarlett2_volume_ctl_put [0] (some [0]) [0] 0 5 (-22) 0).2.1 ≠ [0] := by
  constructor
  · rfl
  · decide

/-- C8 (amended): when the device transfer of a changing volume or
mixer-gain put fails, the put returns that error, but the in-memory
mirror retains the new value — it is rolled forward before the transfer
and is not rolled back on failure. -/
theorem scarlett2_put_transfer_error_amended :
    (∀ (vol : List Nat) (swCfgVol : Option (List Int)) (swhw : List Nat)
       (index val : Nat) (usbErr commitErr : Int),
       vol.getD index 0 ≠ val → usbErr < 0 →
       scarlett2_volume_ctl_put vol swCfgVol swhw index val usbErr commitErr =
         (usbErr, vol.set index val, swCfgVol,
          some (scarlett2_usb_set_config_req scarlett2_config_line_out_volume
            index ((val : Int) - (SCARLETT2_VOLUME_BIAS : Int))))) ∧
    (∀ (mix : List Nat) (swCfgMixer : Option (List Nat)) (index val : Nat)
       (usbErr : Int),
       mix.getD index 0 ≠ val → usbErr < 0 →
       scarlett2_mixer_ctl_put mix swCfgMixer index val usbErr =
         some (usbErr, mix.set index val, swCfgMixer)) := by
  constructor
  · intro vol swCfgVol swhw index val usbErr commitErr hne herr
    unfold scarlett2_volume_ctl_put
    simp only [if_neg hne, if_pos (show usbErr ≠ 0 by omega)]
  · intro mix swCfgMixer index val usbErr hne herr
    unfold scarlett2_mixer_ctl_put
    simp only [if_neg hne, if_pos herr]

/-- Witness for C8 (amended): the failing put from the counterexample
returns `-EINVAL` with the mirror rolled forward to `[5]`. -/
theorem scarlett2_put_transfer_error_amended_witness :
    (scarlett2_volume_ctl_put [0] (some [0]) [0] 0 5 (-22) 0).2.1 = [5] ∧
    (scarlett2_mixer_ctl_put [0] none 0 7 (-22)) = some (-22, [7], none) := by
  have h1 := scarlett2_put_transfer_error_amended.1 [0] (some [0]) [0] 0 5
    (-22) 0 (by decide) (by decide)
  have h2 := scarlett2_put_transfer_error_amended.2 [0] none 0 7 (-22)
    (by decide) (by decide)
  rw [h1, h2]
  exact ⟨rfl, rfl⟩

/-- C10: the mixer-gain cell put and the initial mixer-control setup
dereference the software-configuration mirror without a NULL guard — a
changing put (with the transfer succeeding) and setup with at least one
mix cell crash (`none`) when the mirror is absent and are safe when it
is present — whereas the volume put and the mixer-mute put guard on the
mirror and complete without it. -/
theorem scarlett2_sw_cfg_null_safety :
    (∀ (mix : List Nat) (index val : Nat) (usbErr : Int),
       mix.getD index 0 ≠ val → 0 ≤ usbErr →
       scarlett2_mixer_ctl_put mix none index val usbErr = none) ∧
    (∀ (mix g : List Nat) (index val : Nat) (usbErr : Int),
       (scarlett2_mixer_ctl_put mix (some g) index val usbErr).isSome = true) ∧
    (∀ ni no : Nat, 0 < ni → 0 < no →
       scarlett2_add_mixer_ctls true ni no none = none) ∧
    (∀ (hm : Bool) (ni no : Nat) (cfg : Scarlett2SwCfgMixerView),
       (scarlett2_add_mixer_ctls hm ni no (some cfg)).isSome = true) ∧
    (∀ (mix_mutes : List Nat) (swCfgMute : Option (List Nat))
       (ninp index v : Nat) (ce ue : Int),
       (scarlett2_mixer_mute_ctl_put mix_mutes swCfgMute ninp index v ce
         ue).isSome = true) ∧
    (∀ (vol : List Nat) (swhw : List Nat) (index val : Nat)
       (commitErr : Int),
       vol.getD index 0 ≠ val →
       scarlett2_volume_ctl_put vol none swhw index val 0 commitErr =
         (1, vol.set index val, none,
          some (scarlett2_usb_set_config_req scarlett2_config_line_out_volume
            index ((val : Int) - (SCARLETT2_VOLUME_BIAS : Int))))) := by
  refine ⟨?_, ?_, ?_, ?_, ?_, ?_⟩
  · intro mix index val usbErr hne herr
    unfold scarlett2_mixer_ctl_put
    simp only [if_neg hne, if_neg (show ¬ usbErr < 0 by omega)]
  · intro mix g index val usbErr
    unfold scarlett2_mixer_ctl_put
    dsimp only
    split
    · rfl
    · split
      · rfl
      · rfl
  · intro ni no hni hno
    unfold scarlett2_add_mixer_ctls
    simp only [not_true, if_neg, if_false]
    rw [if_neg (show ¬ (no = 0 ∨ ni = 0) by omega)]
  · intro hm ni no cfg
    unfold scarlett2_add_mixer_ctls
    dsimp only
    split
    · rfl
    · split
      · rfl
      · rfl
  · intro mix_mutes swCfgMute ninp index v ce ue
    unfold scarlett2_mixer_mute_ctl_put
    dsimp only
    repeat' first | rfl | split
  · intro vol swhw index val commitErr hne
    unfold scarlett2_volume_ctl_put
    simp only [if_neg hne, if_neg (show ¬ (0 : Int) ≠ 0 by omega)]

/-- Witness for C10: with a missing blob a changing mixer-gain put
crashes while the mute put completes, at concrete arguments. -/
theorem scarlett2_sw_cfg_null_safety_witness :
    scarlett2_mixer_ctl_put [0] none 0 160 0 = none ∧
    scarlett2_add_mixer_ctls true 24 10 none = none ∧
    (scarlett2_mixer_mute_ctl_put [0] none 24 0 0 0 0).isSome = true :=
  ⟨scarlett2_sw_cfg_null_safety.1 [0] 0 160 0 (by decide) (by decide),
   scarlett2_sw_cfg_null_safety.2.2.1 24 10 (by decide) (by decide),
   scarlett2_sw_cfg_null_safety.2.2.2.2.1 [0] none 24 0 0 0 0⟩

/-! ## Deferred commit (scarlett2_config_save, scarlett2_usb_set_config /
scarlett2_commit_software_config timer discipline) -/

/-- `SCARLETT2_USB_DATA_CMD`. -/
def SCARLETT2_USB_DATA_CMD : Nat := 0x00800002

/-- `SCARLETT2_USB_CONFIG_SAVE`. -/
def SCARLETT2_USB_CONFIG_SAVE : Nat := 6

/-- The command `scarlett2_config_save` issues: a `DATA_CMD` whose value
word is `CONFIG_SAVE` = 6. -/
def scarlett2_config_save_cmd : Nat × Nat :=
  (SCARLETT2_USB_DATA_CMD, SCARLETT2_USB_CONFIG_SAVE)

/-- Modelled from the spec: the kernel delayed-work timer driving the
deferred NVRAM commit (`cancel_delayed_work_sync` followed by
`schedule_delayed_work(…, 2000 ms)` around every persistent mutation,
as in `scarlett2_usb_set_config` and `scarlett2_commit_software_config`;
the workqueue semantics themselves are outside `src/`).  The input is
the ascending list of mutation instants (ms); the state is the pending
expiry, if any.  A pending timer that has already expired before the
next mutation has fired and emitted its save; otherwise the mutation
cancels it.  Each mutation then re-arms the timer 2000 ms ahead, and a
timer still pending at the end fires.  Emitted saves are `(instant,
DATA_CMD, CONFIG_SAVE)` triples. -/
def scarlett2_save_timer_run : List Nat → Option Nat → List (Nat × Nat × Nat)
  | [], none => []
  | [], some d => [(d, scarlett2_config_save_cmd.1, scarlett2_config_save_cmd.2)]
  | t :: rest, none => scarlett2_save_timer_run rest (some (t + 2000))
  | t :: rest, some d =>
    if d ≤ t then
      (d, scarlett2_config_save_cmd.1, scarlett2_config_save_cmd.2) ::
        scarlett2_save_timer_run rest (some (t + 2000))
    else scarlett2_save_timer_run rest (some (t + 2000))

/-- A pending timer survives a run of mutations each arriving within
2000 ms of the previous instant, ending re-armed off the last instant. -/
theorem scarlett2_save_timer_run_chain (ts : List Nat) (prev : Nat)
    (hchain : List.Chain' (fun a b => a ≤ b ∧ b < a + 2000) (prev :: ts)) :
    scarlett2_save_timer_run ts (some (prev + 2000)) =
      [(ts.getLastD prev + 2000, scarlett2_config_save_cmd.1,
        scarlett2_config_save_cmd.2)] := by
  induction ts generalizing prev with
  | nil => rfl
  | cons t rest ih =>
    have hrel : prev ≤ t ∧ t < prev + 2000 :=
      List.chain'_cons.mp hchain |>.1
    have htail : List.Chain' (fun a b => a ≤ b ∧ b < a + 2000) (t :: rest) :=
      List.chain'_cons.mp hchain |>.2
    unfold scarlett2_save_timer_run
    rw [if_neg (by omega : ¬ prev + 2000 ≤ t)]
    rw [ih t htail]
    rw [List.getLastD_cons]

/-- C9: Deferred-commit coalescing.  For any nonempty ascending sequence
of persistent mutations in which each mutation arrives strictly within
2000 ms of the previous one, the cancel-then-re-arm discipline makes the
driver issue exactly one save — a `DATA_CMD` (0x00800002) carrying
`CONFIG_SAVE` (6) — 2000 ms after the last mutation. -/
theorem scarlett2_deferred_commit_coalescing (t0 : Nat) (ts : List Nat)
    (hchain : List.Chain' (fun a b => a ≤ b ∧ b < a + 2000) (t0 :: ts)) :
    scarlett2_save_timer_run (t0 :: ts) none =
      [(ts.getLastD t0 + 2000, SCARLETT2_USB_DATA_CMD,
        SCARLETT2_USB_CONFIG_SAVE)] := by
  show scarlett2_save_timer_run ts (some (t0 + 2000)) = _
  exact scarlett2_save_timer_run_chain ts t0 hchain

/-- Witness for C9: three mutations at 0 ms, 1500 ms and 3000 ms produce
exactly one save, at 5000 ms. -/
theorem scarlett2_deferred_commit_coalescing_witness :
    scarlett2_save_timer_run [0, 1500, 3000] none =
      [(5000, SCARLETT2_USB_DATA_CMD, SCARLETT2_USB_CONFIG_SAVE)] :=
  scarlett2_deferred_commit_coalescing 0 [1500, 3000]
    (List.chain'_cons.mpr ⟨⟨by omega, by omega⟩,
      List.chain'_cons.mpr ⟨⟨by omega, by omega⟩,
        List.chain'_singleton 3000⟩⟩)

/-! ## Routing engine: reading the mux (scarlett2_usb_get_mux) -/

/-- `SCARLETT2_MUX_MAX`. -/
def SCARLETT2_MUX_MAX : Nat := 77

/-- Loop body of `scarlett2_usb_get_mux` for one received 32-bit slot:
decode the source (bits 12..23) and destination (bits 0..11) wire IDs
and, when the destination index is in range, store the decoded source
index (possibly `-1`) at the destination index of the mux mirror. -/
def scarlett2_usb_get_mux_step (ports : List Scarlett2Ports) (m : List Int)
    (w : Nat) : List Int :=
  let src_port := scarlett2_mux_to_id ports 0 (w >>> 12)
  let dst_port := scarlett2_mux_to_id ports 1 w
  if 0 ≤ dst_port ∧ dst_port < (SCARLETT2_MUX_MAX : Int) then
    m.set dst_port.toNat src_port
  else m

/-- `scarlett2_usb_get_mux` mirror update: clear all
`SCARLETT2_MUX_MAX` mirror entries to 0, then process each received
32-bit slot in order. -/
def scarlett2_usb_get_mux_decode (ports : List Scarlett2Ports)
    (data : List Nat) : List Int :=
  data.foldl (scarlett2_usb_get_mux_step ports)
    (List.replicate SCARLETT2_MUX_MAX 0)

/-- Declarative view: the last received slot whose destination wire ID
decodes to mirror index `i`. -/
def scarlett2_mux_last_dst (ports : List Scarlett2Ports) (i : Nat) :
    List Nat → Option Nat
  | [] => none
  | w :: rest =>
    match scarlett2_mux_last_dst ports i rest with
    | some r => some r
    | none =>
      if scarlett2_mux_to_id ports 1 w = (i : Int) then some w else none

/-- `List.getD` on a replicated list is the replicated element. -/
theorem list_getD_replicate {α : Type} (n i : Nat) (a : α) :
    (List.replicate n a).getD i a = a := by
  induction n generalizing i with
  | zero => rfl
  | succ n ih =>
    cases i with
    | zero => rfl
    | succ i => exact ih i

/-- Folding the mux-decode step over received slots: each mirror entry
holds the decoded source of the last slot targeting it, or its initial
value when no slot targets it. -/
theorem scarlett2_get_mux_foldl (ports : List Scarlett2Ports)
    (data : List Nat) (m : List Int) (i : Nat)
    (hm : m.length = SCARLETT2_MUX_MAX) (hi : i < SCARLETT2_MUX_MAX) :
    (data.foldl (scarlett2_usb_get_mux_step ports) m).getD i 0 =
      match scarlett2_mux_last_dst ports i data with
      | some w => scarlett2_mux_to_id ports 0 (w >>> 12)
      | none => m.getD i 0 := by
  induction data generalizing m with
  | nil => rfl
  | cons w rest ih =>
    have hm2 : (scarlett2_usb_get_mux_step ports m w).length =
        SCARLETT2_MUX_MAX := by
      unfold scarlett2_usb_get_mux_step
      dsimp only
      split
      · simpa [List.length_set] using hm
      · exact hm
    rw [List.foldl_cons, ih _ hm2]
    cases hlast : scarlett2_mux_last_dst ports i rest with
    | some r => simp [scarlett2_mux_last_dst, hlast]
    | none =>
      simp only [scarlett2_mux_last_dst, hlast]
      by_cases hd : scarlett2_mux_to_id ports 1 w = (i : Int)
      · rw [if_pos hd]
        unfold scarlett2_usb_get_mux_step
        dsimp only
        rw [hd]
        rw [if_pos ⟨Int.natCast_nonneg i, by exact_mod_cast hi⟩]
        rw [Int.toNat_natCast]
        exact list_getD_set_self m i _ 0 (by omega)
      · rw [if_neg hd]
        unfold scarlett2_usb_get_mux_step
        dsimp only
        split
        · rename_i hcond
          refine list_getD_set_ne m i _ _ 0 ?_
          intro heq
          apply hd
          obtain ⟨h0, _⟩ := hcond
          omega
        · rfl

/-- Counterexample to C5 as stated: for the 18i20 Gen 2, the slot
`0x00080` has a decodable destination (Analogue Out 1, mirror index 0)
but an undecodable source (wire ID 0), and the decode stores `-1` in the
mirror entry instead of leaving it at its cleared value 0. -/
theorem scarlett2_get_mux_unknown_src_cex :
    (scarlett2_usb_get_mux_decode s18i20_gen2_ports [0x080]).getD 0 0 = -1 ∧
    ((-1 : Int) ≠ 0) := by
  constructor
  · decide
  · decide

/-- C5 (amended): `scarlett2_usb_get_mux` stores, for every mirror index
`i`, the decoded source index of the last received 32-bit slot whose
destination wire ID (low 12 bits) decodes to `i` — that source being the
declared port index when the source wire ID (next 12 bits) decodes, and
`-1` when it does not — and leaves the entry at its cleared value 0 when
no slot's destination decodes to `i`. -/
theorem scarlett2_get_mux_decode_amended (ports : List Scarlett2Ports)
    (data : List Nat) (i : Nat) (hi : i < SCARLETT2_MUX_MAX) :
    (scarlett2_usb_get_mux_decode ports data).getD i 0 =
      match scarlett2_mux_last_dst ports i data with
      | some w => scarlett2_mux_to_id ports 0 (w >>> 12)
      | none => 0 := by
  unfold scarlett2_usb_get_mux_decode
  rw [scarlett2_get_mux_foldl ports data _ i (by simp) hi]
  cases scarlett2_mux_last_dst ports i data with
  | some w => rfl
  | none => exact list_getD_replicate SCARLETT2_MUX_MAX i 0

/-- Witness for C5 (amended): slot `0x600080` routes PCM In 1 (flat
source index 28) to Analogue Out 1 (mirror index 0) on the 18i20 Gen 2. -/
theorem scarlett2_get_mux_decode_amended_witness :
    (0 : Nat) < SCARLETT2_MUX_MAX ∧
    (scarlett2_usb_get_mux_decode s18i20_gen2_ports [0x600080]).getD 0 0 = 28 := by
  refine ⟨by decide, ?_⟩
  rw [scarlett2_get_mux_decode_amended s18i20_gen2_ports [0x600080] 0 (by decide)]
  decide

/-! ## Routing engine: writing the mux (scarlett2_usb_set_mux,
scarlett2_output_index) -/

/-- The fixed `assignment_order` of `scarlett2_usb_set_mux`: PCM,
Analogue, S/PDIF, ADAT, Mix, Talkback (as port-type numbers). -/
def scarlett2_mux_assignment_order : List Nat := [4, 0, 1, 2, 3, 6]

/-- Loop body of `scarlett2_output_index`: walk Analogue, S/PDIF, ADAT
in order, accumulating the base index from the OUT-direction counts. -/
def scarlett2_output_index_go (ports : List Scarlett2Ports)
    (port_type port_num : Nat) : List Nat → Nat → Int
  | [], _ => -1
  | t :: rest, index =>
    let count := (ports.getD t scarlett2_zero_port).numAt 1
    if port_type = t then
      (if port_num < count then ((index + port_num : Nat) : Int) else -1)
    else scarlett2_output_index_go ports port_type port_num rest (index + count)

/-- `scarlett2_output_index`: index of an output in the per-output mute
array, `-1` when the port type carries no hardware mute. -/
def scarlett2_output_index (ports : List Scarlett2Ports)
    (port_type port_num : Nat) : Int :=
  scarlett2_output_index_go ports port_type port_num [0, 1, 2] 0

/-- The destinations `scarlett2_usb_set_mux` traverses for one
sample-rate band: every (type, index) pair in assignment order, with
indices below the type's count for that band. -/
def scarlett2_mux_dst_list (ports : List Scarlett2Ports)
    (direction : Nat) : List (Nat × Nat) :=
  scarlett2_mux_assignment_order.flatMap (fun t =>
    (List.range ((ports.getD t scarlett2_zero_port).numAt direction)).map
      (fun p => (t, p)))

/-- One 32-bit SET_MUX slot: destination wire ID in the low 12 bits,
source wire ID in the next 12; the source is forced to 0 when the
destination's per-output mute flag is set. -/
def scarlett2_set_mux_entry (ports : List Scarlett2Ports) (mux : List Int)
    (mutes : List Nat) (tp : Nat × Nat) : Nat :=
  let port_idx := scarlett2_get_port_num ports 1 tp.1 (tp.2 : Int)
  let mute_idx := scarlett2_output_index ports tp.1 tp.2
  let src_mux :=
    if 0 ≤ mute_idx ∧ mutes.getD mute_idx.toNat 0 ≠ 0 then 0
    else scarlett2_id_to_mux ports 0 (mux.getD port_idx.toNat 0)
  let dst_mux := scarlett2_id_to_mux ports 1 port_idx
  (src_mux <<< 12) ||| dst_mux

/-- The 32-bit slots `scarlett2_usb_set_mux` sends for one band: one
entry per destination in assignment order, zero-padded up to
`mux_size[band]`. -/
def scarlett2_usb_set_mux_payload (ports : List Scarlett2Ports)
    (mux_size : List Nat) (mux : List Int) (mutes : List Nat)
    (direction : Nat) : List Nat :=
  let entries := (scarlett2_mux_dst_list ports direction).map
    (scarlett2_set_mux_entry ports mux mutes)
  entries ++ List.replicate (mux_size.getD direction 0 - entries.length) 0

/-- A device descriptor as needed by the mux writer: ports and per-band
mux table sizes. -/
structure Scarlett2DeviceInfo where
  ports : List Scarlett2Ports
  mux_size : List Nat
deriving Repr, DecidableEq

/-- 6i6 Gen 2: ports and `mux_size`. -/
def s6i6_gen2_dev : Scarlett2DeviceInfo :=
  ⟨s6i6_gen2_ports, [42, 42, 42, 42, 42]⟩

/-- 18i8 Gen 2: ports and `mux_size`. -/
def s18i8_gen2_dev : Scarlett2DeviceInfo :=
  ⟨s18i8_gen2_ports, [60, 60, 60, 56, 50]⟩

/-- 18i20 Gen 2: ports and `mux_size`. -/
def s18i20_gen2_dev : Scarlett2DeviceInfo :=
  ⟨s18i20_gen2_ports, [77, 77, 77, 73, 46]⟩

/-- 4i4 Gen 3: ports and `mux_size`. -/
def s4i4_gen3_dev : Scarlett2DeviceInfo :=
  ⟨s4i4_gen3_ports, [77, 77, 77, 73, 46]⟩

/-- 8i6 Gen 3: ports and `mux_size`. -/
def s8i6_gen3_dev : Scarlett2DeviceInfo :=
  ⟨s8i6_gen3_ports, [42, 42, 42, 42, 42]⟩

/-- 18i8 Gen 3: ports and `mux_size`. -/
def s18i8_gen3_dev : Scarlett2DeviceInfo :=
  ⟨s18i8_gen3_ports, [60, 60, 60, 56, 50]⟩

/-- 18i20 Gen 3: ports and `mux_size`. -/
def s18i20_gen3_dev : Scarlett2DeviceInfo :=
  ⟨s18i20_gen3_ports, [77, 77, 77, 73, 46]⟩

/-- The devices whose descriptors declare a mux (`has_mux`). -/
def scarlett2_mux_devices : List Scarlett2DeviceInfo :=
  [s6i6_gen2_dev, s18i8_gen2_dev, s18i20_gen2_dev, s4i4_gen3_dev,
   s8i6_gen3_dev, s18i8_gen3_dev, s18i20_gen3_dev]

/-- The destination wire ID of every traversed destination fits in the
low 12 bits, for every mux-capable device and band. -/
theorem scarlett2_mux_dst_wire_small :
    ∀ dev ∈ scarlett2_mux_devices, ∀ direction < 5,
      ∀ tp ∈ scarlett2_mux_dst_list dev.ports direction,
        scarlett2_id_to_mux dev.ports 1
            (scarlett2_get_port_num dev.ports 1 tp.1 (tp.2 : Int)) < 4096 := by
  decide

/-- A muted destination's slot degenerates to its destination wire ID:
the emitted source wire ID is 0. -/
theorem scarlett2_set_mux_entry_muted (ports : List Scarlett2Ports)
    (mux : List Int) (mutes : List Nat) (tp : Nat × Nat)
    (h0 : 0 ≤ scarlett2_output_index ports tp.1 tp.2)
    (h1 : mutes.getD (scarlett2_output_index ports tp.1 tp.2).toNat 0 ≠ 0) :
    scarlett2_set_mux_entry ports mux mutes tp =
      scarlett2_id_to_mux ports 1
        (scarlett2_get_port_num ports 1 tp.1 (tp.2 : Int)) := by
  unfold scarlett2_set_mux_entry
  dsimp only
  rw [if_pos ⟨h0, h1⟩]
  simp [Nat.zero_shiftLeft, Nat.zero_or]

/-- Counterexample to C6 as stated: for the 18i20 Gen 3 at the
176.4/192 kHz band the traversal emits 47 slots — 10 PCM + 10 analogue +
2 S/PDIF + 0 ADAT + 24 mix + 1 talkback — although `mux_size[4]` is 46,
so the payload does not contain exactly `mux_size[band]` slots. -/
theorem scarlett2_set_mux_size_cex :
    (scarlett2_usb_set_mux_payload s18i20_gen3_ports s18i20_gen3_dev.mux_size
        (List.replicate 77 0) (List.replicate 26 0) 4).length = 47 ∧
    s18i20_gen3_dev.mux_size.getD 4 0 = 46 := by
  constructor
  · decide
  · decide

/-- C6 (amended): for every mux-capable device and sample-rate band, the
SET_MUX payload contains `max(number of traversed destinations,
mux_size[band])` 32-bit slots (equal to `mux_size[band]` except for the
18i20 Gen 3 at 176.4/192 kHz, where one extra slot is emitted): one
entry `(src_wire_id << 12) | dst_wire_id` per destination in the fixed
assignment order, the remainder zero-filled; and for any destination
whose per-output mute flag is set, the emitted source wire ID is 0
regardless of the mirrored mux value. -/
theorem scarlett2_set_mux_payload_amended :
    ∀ dev ∈ scarlett2_mux_devices, ∀ direction, 2 ≤ direction →
      direction ≤ 4 → ∀ (mux : List Int) (mutes : List Nat),
      (scarlett2_usb_set_mux_payload dev.ports dev.mux_size mux mutes
          direction).length =
        max (scarlett2_mux_dst_list dev.ports direction).length
          (dev.mux_size.getD direction 0) ∧
      (∀ i, (scarlett2_mux_dst_list dev.ports direction).length ≤ i →
        (scarlett2_usb_set_mux_payload dev.ports dev.mux_size mux mutes
          direction).getD i 0 = 0) ∧
      (∀ i (h : i < (scarlett2_mux_dst_list dev.ports direction).length),
        (scarlett2_usb_set_mux_payload dev.ports dev.mux_size mux mutes
          direction).getD i 0 =
        scarlett2_set_mux_entry dev.ports mux mutes
          ((scarlett2_mux_dst_list dev.ports direction).get ⟨i, h⟩)) ∧
      (∀ i (h : i < (scarlett2_mux_dst_list dev.ports direction).length),
        0 ≤ scarlett2_output_index dev.ports
            ((scarlett2_mux_dst_list dev.ports direction).get ⟨i, h⟩).1
            ((scarlett2_mux_dst_list dev.ports direction).get ⟨i, h⟩).2 →
        mutes.getD (scarlett2_output_index dev.ports
            ((scarlett2_mux_dst_list dev.ports direction).get ⟨i, h⟩).1
            ((scarlett2_mux_dst_list dev.ports direction).get ⟨i, h⟩).2).toNat
            0 ≠ 0 →
        (scarlett2_usb_set_mux_payload dev.ports dev.mux_size mux mutes
          direction).getD i 0 >>> 12 = 0) := by
  intro dev hdev direction h2 h4 mux mutes
  set dests := scarlett2_mux_dst_list dev.ports direction with hdests
  have hlen : ((scarlett2_mux_dst_list dev.ports direction).map
      (scarlett2_set_mux_entry dev.ports mux mutes)).length = dests.length := by
    rw [List.length_map, hdests]
  have hentry : ∀ i (h : i < dests.length),
      (scarlett2_usb_set_mux_payload dev.ports dev.mux_size mux mutes
        direction).getD i 0 =
      scarlett2_set_mux_entry dev.ports mux mutes (dests.get ⟨i, h⟩) := by
    intro i h
    unfold scarlett2_usb_set_mux_payload
    rw [List.getD_append _ _ 0 i (by rw [hlen]; exact h)]
    rw [List.getD_eq_getElem _ 0 (by rw [hlen]; exact h)]
    rw [List.getElem_map]
    rfl
  refine ⟨?_, ?_, hentry, ?_⟩
  · unfold scarlett2_usb_set_mux_payload
    rw [List.length_append, List.length_replicate, hlen]
    omega
  · intro i hge
    unfold scarlett2_usb_set_mux_payload
    rw [List.getD_append_right _ _ 0 i (by rw [hlen]; exact hge)]
    rw [hlen]
    exact list_getD_replicate _ _ 0
  · intro i h hmi hflag
    rw [hentry i h]
    rw [scarlett2_set_mux_entry_muted dev.ports mux mutes _ hmi hflag]
    have hsmall := scarlett2_mux_dst_wire_small dev hdev direction
      (by omega) (dests.get ⟨i, h⟩) (by exact List.get_mem dests i h)
    rw [Nat.shiftRight_eq_div_pow]
    exact Nat.div_eq_of_lt (by simpa using hsmall)

/-- Witness for C6 (amended): 6i6 Gen 2, 44.1/48 kHz band, empty mux,
all outputs muted — 42 slots, slot 40 is padding, and slot 6 (Analogue
Out 1) carries source wire ID 0. -/
theorem scarlett2_set_mux_payload_amended_witness :
    (scarlett2_usb_set_mux_payload s6i6_gen2_ports s6i6_gen2_dev.mux_size
        (List.replicate 77 0) (List.replicate 26 1) 2).length = 42 ∧
    (scarlett2_usb_set_mux_payload s6i6_gen2_ports s6i6_gen2_dev.mux_size
        (List.replicate 77 0) (List.replicate 26 1) 2).getD 40 0 = 0 ∧
    (scarlett2_usb_set_mux_payload s6i6_gen2_ports s6i6_gen2_dev.mux_size
        (List.replicate 77 0) (List.replicate 26 1) 2).getD 6 0 >>> 12 = 0 := by
  have h := scarlett2_set_mux_payload_amended s6i6_gen2_dev (by decide) 2
    (by decide) (by decide) (List.replicate 77 0) (List.replicate 26 1)
  refine ⟨h.1.trans (by decide), h.2.1 40 (by decide),
    h.2.2.2 6 (by decide) (by decide) (by decide)⟩
